import Mathlib

/-!
Verification of `f8_catbox_uploader.py`, a hotkey screenshot-and-upload
utility.  The Python source is shallowly embedded: strings are lists of
characters, the HTTP response is a structure carrying status code and body,
the filesystem and clipboard are an explicit world record, and the outcome
of each effectful collaborator (tkinter selection, `requests.post`,
`pyperclip.copy`, `os.remove`) is supplied by an environment record, so that
the orchestration logic of the script itself is a total function.
-/

/-- Python strings, embedded as lists of characters. -/
abbrev Str := List Char

/-- ASCII whitespace as recognised by Python `str.strip()`
(space, tab, newline, carriage return, vertical tab, form feed). -/
def pyIsSpace (c : Char) : Bool :=
  c = ' ' || c = '\t' || c = '\n' || c = '\r' || c = '\x0b' || c = '\x0c'

/-- Python `s.strip()`: drop leading and trailing whitespace. -/
def pyStrip (s : Str) : Str :=
  ((s.dropWhile pyIsSpace).reverse.dropWhile pyIsSpace).reverse

/-- The body with trailing whitespace removed (used to state what
`upload_to_catbox` returns on success). -/
def dropTrailingWS (s : Str) : Str :=
  (s.reverse.dropWhile pyIsSpace).reverse

/-- Whether a string ends in a whitespace character. -/
def hasTrailingWS (s : Str) : Bool :=
  match s.reverse with
  | [] => false
  | c :: _ => pyIsSpace c

/-- An HTTP response as seen through `requests`: status code and body text. -/
structure Response where
  status : Nat
  text : Str
deriving DecidableEq

/-- Truth value of `requests.Response.ok`: true exactly when the status code is below 400. -/
def respOk (r : Response) : Bool := r.status < 400

/-- The literal `"http"` checked by `resp.text.startswith("http")`. -/
def httpLit : Str := ['h', 't', 't', 'p']

/-- Python `s.startswith(pre)`. -/
def startswith (pre s : Str) : Bool := pre.isPrefixOf s

/-- The `RuntimeError` raised by `upload_to_catbox`; the source formats these
two fields into the message `f"Upload failed ({resp.status_code}): {resp.text}"`. -/
structure UploadError where
  status : Nat
  body : Str
deriving DecidableEq

/-- The function `upload_to_catbox`, from the point where the HTTP response is in hand:
`if not resp.ok or not resp.text.startswith("http"): raise RuntimeError(...)`
and otherwise `return resp.text.strip()`. -/
def upload_to_catbox (resp : Response) : Except UploadError Str :=
  if !respOk resp || !startswith httpLit resp.text then
    .error ⟨resp.status, resp.text⟩
  else
    .ok (pyStrip resp.text)

/-! ## Region selection (`SnippingTool` / `take_snip`)  -/

/-- The mutable coordinate state of the `SnippingTool` tkinter class
(the canvas and rectangle handle are display-only and not modelled). -/
structure SnippingTool where
  start_x : Int
  start_y : Int
  end_x : Int
  end_y : Int
deriving DecidableEq

/-- Constructor state: in `__init__` all four coordinates start at `0`. -/
def initTool : SnippingTool := ⟨0, 0, 0, 0⟩

/-- Screen coordinates of a pointer event. -/
structure MouseEvent where
  x : Int
  y : Int
deriving DecidableEq

/-- Handler `on_button_press`: record the drag start point (the canvas rectangle it
also creates is display-only). -/
def on_button_press (s : SnippingTool) (e : MouseEvent) : SnippingTool :=
  { s with start_x := e.x, start_y := e.y }

/-- Handler `on_move_press`: only moves the displayed rectangle outline; the
recorded coordinate state is untouched. -/
def on_move_press (s : SnippingTool) (_e : MouseEvent) : SnippingTool := s

/-- Handler `on_button_release`: record the drag end point (the window is then
destroyed, ending the event loop). -/
def on_button_release (s : SnippingTool) (e : MouseEvent) : SnippingTool :=
  { s with end_x := e.x, end_y := e.y }

/-- A complete drag gesture: press, any number of moves, release. -/
def runDrag (press : MouseEvent) (moves : List MouseEvent) (release : MouseEvent) :
    SnippingTool :=
  on_button_release ((moves.foldl on_move_press (on_button_press initTool press))) release

/-- The selection rectangle, with the normalisation invariant x1 ≤ x2, y1 ≤ y2. -/
structure SelectionRect where
  x1 : Int
  y1 : Int
  x2 : Int
  y2 : Int
deriving DecidableEq

/-- The min/max normalisation performed by `take_snip` on the raw start and
end coordinates of the tool. -/
def snipRect (tool : SnippingTool) : SelectionRect :=
  ⟨min tool.start_x tool.end_x, min tool.start_y tool.end_y,
   max tool.start_x tool.end_x, max tool.start_y tool.end_y⟩

/-! ## Capture path (`take_snip` timestamped filename)  -/

/-- A `datetime.datetime` value as produced by `datetime.now()`, at the
fields relevant here; `microsecond` exists on the Python value but is not
formatted by `"%Y%m%d_%H%M%S"`. -/
structure PyDateTime where
  year : Nat
  month : Nat
  day : Nat
  hour : Nat
  minute : Nat
  second : Nat
  microsecond : Nat
deriving DecidableEq

/-- Decimal digits of a natural number, most significant first. -/
def digits (n : Nat) : Str :=
  if _h : n < 10 then [Nat.digitChar n]
  else digits (n / 10) ++ [Nat.digitChar (n % 10)]
decreasing_by exact Nat.div_lt_self (by omega) (by omega)

/-- A two-digit zero-padded field, as produced by the `%m %d %H %M %S`
directives of `strftime` for their in-range values. -/
def pad2 (n : Nat) : Str := if n < 10 then '0' :: digits n else digits n

/-- Python `datetime.now().strftime("%Y%m%d_%H%M%S")`: year digits (4 digits for
all years 1000-9999), zero-padded month, day, an underscore, then
zero-padded hour, minute, second; the sub-second part is dropped. -/
def strfTimestamp (t : PyDateTime) : Str :=
  digits t.year ++ pad2 t.month ++ pad2 t.day ++
    '_' :: (pad2 t.hour ++ pad2 t.minute ++ pad2 t.second)

/-- Model of `os.path.join` with POSIX-style separator for a non-empty left part. -/
def osJoin (a b : Str) : Str := a ++ '/' :: b

/-- The fixed directory, `os.path.join` of the home directory with `Pictures`
and `Screenshots`, parameterised by the home directory of the user. -/
def tmpDir (home : Str) : Str :=
  osJoin (osJoin home ("Pictures".toList)) ("Screenshots".toList)

/-- The capture filename: `snip_` followed by the timestamp and `.png`. -/
def snipFilename (t : PyDateTime) : Str :=
  "snip_".toList ++ strfTimestamp t ++ ".png".toList

/-- The full capture path: `os.path.join` of the fixed directory and the filename. -/
def snipPath (home : Str) (t : PyDateTime) : Str :=
  osJoin (tmpDir home) (snipFilename t)

/-- The filesystem effect of `take_snip` after the selection: `img.save(path)`
writes (or overwrites) the file at the timestamped path and the path is
returned. `files` is the set of existing files, as a duplicate-free list. -/
def take_snip (home : Str) (t : PyDateTime) (files : List Str) :
    Str × List Str :=
  let path := snipPath home t
  (path, files.insert path)

/-! ## Session orchestration (`on_hotkey`)  -/

/-- A Python exception value as it flows through the handlers of `on_hotkey`:
either the `RuntimeError` raised by `upload_to_catbox`, or any other
exception (tkinter, PIL, file I/O, `pyperclip`, `os.remove`), carried as
its message. -/
inductive PyExc where
  | runtime (e : UploadError)
  | other (msg : Str)
deriving DecidableEq

/-- The log lines emitted by the session (file logger mirrored to stdout). -/
inductive LogMsg where
  | regionSnipped (path : Str)
  | uploadSuccessful (text : Str)
  | linkCopied
  | errorSnipUpload (e : PyExc)
  | tempDeleted (path : Str)
  | couldNotDelete (e : PyExc)
deriving DecidableEq

/-- The OS state the session reads and writes: the clipboard string and the
set of existing files (a duplicate-free list). -/
structure World where
  clipboard : Str
  files : List Str

/-- The environment of one session: the outcome of each effectful collaborator.
`snip` is the outcome of `take_snip` (an exception from the tkinter/PIL
stack, or the path of the file it created); `httpResp` is the outcome of
`requests.post` for a given path (a request-level exception such as a
timeout, or the received response, which `upload_to_catbox` then checks);
`copyErr` is an exception from `pyperclip.copy`, if any; `removeErr p` is
an exception from `os.remove(p)`, if any. -/
structure Env where
  snip : Except PyExc Str
  httpResp : Str → Except PyExc Response
  copyErr : Option PyExc
  removeErr : Str → Option PyExc

/-- The effect of `os.remove` on the file set. -/
def removeFile (files : List Str) (p : Str) : List Str :=
  files.filter (fun q => q != p)

/-- The `try` block of `on_hotkey` (`take_snip`, `upload_to_catbox`,
`pyperclip.copy`), returning the local variable `path` (None until
`take_snip` returns), the world as mutated so far, the log lines emitted,
and the exception escaping the block, if any. -/
def sessionTry (env : Env) (w : World) :
    Option Str × World × List LogMsg × Option PyExc :=
  match env.snip with
  | .error e => (none, w, [], some e)
  | .ok path =>
    let w1 : World := { w with files := w.files.insert path }
    let log1 : List LogMsg := [.regionSnipped path]
    match env.httpResp path with
    | .error e => (some path, w1, log1, some e)
    | .ok resp =>
      match upload_to_catbox resp with
      | .error ue => (some path, w1, log1, some (.runtime ue))
      | .ok url =>
        let log2 := log1 ++ [.uploadSuccessful resp.text]
        match env.copyErr with
        | some e => (some path, w1, log2, some e)
        | none => (some path, { w1 with clipboard := url }, log2 ++ [.linkCopied], none)

/-- The log line added by `except Exception: logger.exception(...)`:
one entry when an exception escaped the `try` block, none otherwise. -/
def excLog (excOpt : Option PyExc) : List LogMsg :=
  match excOpt with
  | some e => [.errorSnipUpload e]
  | none => []

/-- The `finally` block of `on_hotkey`:
`if path and os.path.exists(path):` delete the temporary file, the deletion
itself guarded by an inner `try/except` that only logs a failure. -/
def cleanupStep (env : Env) (pathOpt : Option Str) (w1 : World)
    (log2 : List LogMsg) : World × List LogMsg :=
  match pathOpt with
  | none => (w1, log2)
  | some p =>
    if p ≠ [] ∧ p ∈ w1.files then
      match env.removeErr p with
      | none => ({ w1 with files := removeFile w1.files p }, log2 ++ [.tempDeleted p])
      | some e => (w1, log2 ++ [.couldNotDelete e])
    else (w1, log2)

/-- The function `on_hotkey`: run the `try` block; `except Exception:` logs and swallows
the exception; then the `finally` block runs.  The result is `.error` only
if an exception propagates to the caller. -/
def on_hotkey (env : Env) (w : World) : Except PyExc (World × List LogMsg) :=
  match sessionTry env w with
  | (pathOpt, w1, log1, excOpt) =>
    .ok (cleanupStep env pathOpt w1 (log1 ++ excLog excOpt))

/-- Characterisation of the exception escaping the `try` block: the first
failure among take_snip, the POST, the response check, and the clipboard
write. -/
def sessionExc (env : Env) : Option PyExc :=
  match env.snip with
  | .error e => some e
  | .ok path =>
    match env.httpResp path with
    | .error e => some e
    | .ok resp =>
      match upload_to_catbox resp with
      | .error ue => some (.runtime ue)
      | .ok _ => env.copyErr

/-- Characterisation of a fully successful run up to the clipboard write:
the URL that gets copied, when selection, capture, upload, and the
clipboard write all succeed. -/
def sessionUrl (env : Env) : Option Str :=
  match env.snip with
  | .error _ => none
  | .ok path =>
    match env.httpResp path with
    | .error _ => none
    | .ok resp =>
      match upload_to_catbox resp with
      | .error _ => none
      | .ok url =>
        match env.copyErr with
        | some _ => none
        | none => some url

/-- Whether `on_hotkey` returned normally (no exception propagated). -/
def isOkE (r : Except PyExc (World × List LogMsg)) : Bool :=
  match r with
  | .ok _ => true
  | .error _ => false

/-- The world after a run of `on_hotkey` (the prior world if an exception
propagated). -/
def resultWorld (r : Except PyExc (World × List LogMsg)) (w : World) : World :=
  match r with
  | .ok p => p.1
  | .error _ => w

/-- The log emitted by a run of `on_hotkey`. -/
def resultLog (r : Except PyExc (World × List LogMsg)) : List LogMsg :=
  match r with
  | .ok p => p.2
  | .error _ => []

/-! ## Concrete sessions used to evaluate the model  -/

/-- A concrete capture-file path. -/
def pC4 : Str := "/home/user/Pictures/Screenshots/snip_20261012_134559.png".toList

/-- A session where the endpoint answers HTTP 400 and deleting the
temporary file also fails. -/
def envC4 : Env :=
  ⟨.ok pC4, fun _ => .ok ⟨400, "Bad request".toList⟩, none,
    fun _ => some (.other "PermissionError".toList)⟩

/-- An initial world with an empty clipboard and no files. -/
def wC4 : World := ⟨[], []⟩

/-- A concrete capture-file path. -/
def pC5 : Str := "/home/user/Pictures/Screenshots/snip_20261012_140000.png".toList

/-- A session that succeeds through the clipboard write but whose
`os.remove` raises. -/
def envC5 : Env :=
  ⟨.ok pC5, fun _ => .ok ⟨200, "https://files.catbox.moe/abc.png".toList⟩, none,
    fun _ => some (.other "PermissionError".toList)⟩

/-- An initial world with a prior clipboard value and no files. -/
def wC5 : World := ⟨"prior".toList, []⟩

/-- A concrete capture-file path. -/
def pC5w : Str := "/home/user/Pictures/Screenshots/snip_20261012_140100.png".toList

/-- A fully successful session, deletion included. -/
def envC5w : Env :=
  ⟨.ok pC5w, fun _ => .ok ⟨200, "https://files.catbox.moe/def.png".toList⟩, none,
    fun _ => none⟩

/-- An initial world with a prior clipboard value and no files. -/
def wC5w : World := ⟨"prior".toList, []⟩

/-- A concrete capture-file path. -/
def pC6 : Str := "/home/user/Pictures/Screenshots/snip_20261012_140200.png".toList

/-- A session that succeeds through the clipboard write but whose
`os.remove` raises. -/
def envC6 : Env :=
  ⟨.ok pC6, fun _ => .ok ⟨200, "https://files.catbox.moe/ghi.png".toList⟩, none,
    fun _ => some (.other "PermissionError".toList)⟩

/-- An initial world with a prior clipboard value and no files. -/
def wC6 : World := ⟨"prior".toList, []⟩

/-- A concrete home directory. -/
def homeW : Str := "/home/user".toList

/-- A concrete clock reading. -/
def tW : PyDateTime := ⟨2026, 10, 12, 13, 45, 59, 123456⟩

/-- The same clock reading as `tW` except for the sub-second part. -/
def tW2 : PyDateTime := ⟨2026, 10, 12, 13, 45, 59, 999999⟩

/-! ## Helper lemmas  -/

theorem startswith_http_head (s : Str) (h : startswith httpLit s = true) :
    ∃ r, s = 'h' :: r := by
  cases s with
  | nil => simp [startswith, httpLit, List.isPrefixOf] at h
  | cons c r =>
    refine ⟨r, ?_⟩
    simp [startswith, httpLit, List.isPrefixOf] at h
    obtain ⟨h1, -⟩ := h
    subst h1
    rfl

theorem dropWhile_head_not {p : Char → Bool} :
    ∀ (l : List Char) (c : Char) (r : List Char),
      l.dropWhile p = c :: r → p c = false := by
  intro l
  induction l with
  | nil => intro c r h; simp [List.dropWhile] at h
  | cons a t ih =>
    intro c r h
    by_cases ha : p a
    · rw [List.dropWhile_cons_of_pos ha] at h
      exact ih c r h
    · rw [List.dropWhile_cons_of_neg ha] at h
      cases h
      simpa using ha

theorem pyStrip_of_http (s : Str) (h : startswith httpLit s = true) :
    pyStrip s = dropTrailingWS s := by
  obtain ⟨r, hr⟩ := startswith_http_head s h
  subst hr
  have : pyIsSpace 'h' = false := by decide
  simp [pyStrip, dropTrailingWS, List.dropWhile_cons_of_neg, this]

theorem hasTrailingWS_dropTrailingWS (s : Str) :
    hasTrailingWS (dropTrailingWS s) = false := by
  unfold hasTrailingWS dropTrailingWS
  rw [List.reverse_reverse]
  cases hd : s.reverse.dropWhile pyIsSpace with
  | nil => rfl
  | cons c r => exact dropWhile_head_not s.reverse c r hd

theorem dropTrailingWS_of_no_ws (s : Str) (h : hasTrailingWS s = false) :
    dropTrailingWS s = s := by
  unfold hasTrailingWS at h
  unfold dropTrailingWS
  cases hrev : s.reverse with
  | nil =>
    have : s = [] := by simpa using congrArg List.reverse hrev
    simp [this]
  | cons c r =>
    rw [hrev] at h
    have hc : pyIsSpace c = false := by simpa using h
    have h2 : List.dropWhile pyIsSpace (c :: r) = c :: r :=
      List.dropWhile_cons_of_neg (by simp [hc])
    calc (List.dropWhile pyIsSpace (c :: r)).reverse
        = (c :: r).reverse := by rw [h2]
      _ = (s.reverse).reverse := by rw [hrev]
      _ = s := List.reverse_reverse s

/-! ## Claim theorems  -/

/-- C1: `upload_to_catbox` raises exactly when the HTTP response is not a
success status (`resp.ok` is false, i.e. status ≥ 400) or the body does not
begin with the URL scheme prefix `http`; the raised error carries the
status code and the raw body of the response. -/
theorem upload_error_iff (resp : Response) :
    ((∃ e, upload_to_catbox resp = .error e) ↔
      (respOk resp = false ∨ startswith httpLit resp.text = false))
    ∧ (∀ e, upload_to_catbox resp = .error e →
        e.status = resp.status ∧ e.body = resp.text) := by
  constructor
  · constructor
    · rintro ⟨e, he⟩
      by_contra hcon
      push_neg at hcon
      obtain ⟨h1, h2⟩ := hcon
      rw [Bool.ne_false_iff] at h1 h2
      simp [upload_to_catbox, h1, h2] at he
    · intro h
      refine ⟨⟨resp.status, resp.text⟩, ?_⟩
      rcases h with h | h <;> simp [upload_to_catbox, h]
  · intro e he
    by_cases h1 : respOk resp
    · by_cases h2 : startswith httpLit resp.text
      · simp [upload_to_catbox, h1, h2] at he
      · simp only [upload_to_catbox, h1, Bool.not_eq_true] at he
        rw [Bool.not_eq_true] at h2
        simp [h2] at he
        simp [← he]
    · rw [Bool.not_eq_true] at h1
      simp [upload_to_catbox, h1] at he
      simp [← he]

/-- Witness for C1 at the documented example: an HTTP 400 response with body
`Bad request` makes `upload_to_catbox` raise, and the error carries status
400 and that literal body. -/
theorem upload_error_iff_witness :
    upload_to_catbox ⟨400, "Bad request".toList⟩ =
      .error ⟨400, "Bad request".toList⟩
    ∧ (UploadError.mk 400 ("Bad request".toList)).status = 400
    ∧ (UploadError.mk 400 ("Bad request".toList)).body = "Bad request".toList := by
  have h := (upload_error_iff ⟨400, "Bad request".toList⟩).2
    ⟨400, "Bad request".toList⟩ (by rfl)
  exact ⟨rfl, h.1, h.2⟩

/-- C2: on a success-status response whose body begins with `http`,
`upload_to_catbox` returns the body stripped of trailing whitespace; the
returned value never ends in whitespace, and when the body itself has no
trailing whitespace the return value is exactly the body. -/
theorem upload_success_returns_body (resp : Response)
    (hok : respOk resp = true) (hpre : startswith httpLit resp.text = true) :
    upload_to_catbox resp = .ok (dropTrailingWS resp.text)
    ∧ hasTrailingWS (dropTrailingWS resp.text) = false
    ∧ (hasTrailingWS resp.text = false → upload_to_catbox resp = .ok resp.text) := by
  have hmain : upload_to_catbox resp = .ok (dropTrailingWS resp.text) := by
    rw [upload_to_catbox, if_neg (by simp [hok, hpre]), pyStrip_of_http resp.text hpre]
  refine ⟨hmain, hasTrailingWS_dropTrailingWS resp.text, ?_⟩
  intro hnws
  rw [hmain, dropTrailingWS_of_no_ws resp.text hnws]

/-- Witness for C2 at the documented example: an HTTP 200 response with body
`https://files.example/abc.png` yields exactly that body. -/
theorem upload_success_returns_body_witness :
    upload_to_catbox ⟨200, "https://files.example/abc.png".toList⟩ =
      .ok ("https://files.example/abc.png".toList) :=
  (upload_success_returns_body ⟨200, "https://files.example/abc.png".toList⟩
    (by decide) (by decide)).2.2 (by decide)

/-- C3: for every drag gesture (press at (sx,sy), any sequence of pointer
moves, release at (ex,ey)), the finalized rectangle is
(min sx ex, min sy ey, max sx ex, max sy ey), so x1 ≤ x2 and y1 ≤ y2
regardless of drag direction. -/
theorem drag_normalized_rect (press : MouseEvent) (moves : List MouseEvent)
    (release : MouseEvent) :
    snipRect (runDrag press moves release) =
      ⟨min press.x release.x, min press.y release.y,
       max press.x release.x, max press.y release.y⟩
    ∧ (snipRect (runDrag press moves release)).x1 ≤
        (snipRect (runDrag press moves release)).x2
    ∧ (snipRect (runDrag press moves release)).y1 ≤
        (snipRect (runDrag press moves release)).y2 := by
  have hfold : ∀ (ms : List MouseEvent) (s : SnippingTool),
      ms.foldl on_move_press s = s := by
    intro ms
    induction ms with
    | nil => intro s; rfl
    | cons m t ih => intro s; rw [List.foldl_cons]; exact ih (on_move_press s m)
  have hrun : runDrag press moves release =
      ⟨press.x, press.y, release.x, release.y⟩ := by
    rw [runDrag, hfold]
    rfl
  rw [hrun]
  exact ⟨rfl, min_le_max, min_le_max⟩

/-- The exception escaping the `try` block of a run is `sessionExc`. -/
theorem sessionTry_exc (env : Env) (w : World) :
    (sessionTry env w).2.2.2 = sessionExc env := by
  cases hs : env.snip with
  | error e => simp [sessionTry, sessionExc, hs]
  | ok p =>
    cases hh : env.httpResp p with
    | error e => simp [sessionTry, sessionExc, hs, hh]
    | ok resp =>
      cases hu : upload_to_catbox resp with
      | error ue => simp [sessionTry, sessionExc, hs, hh, hu]
      | ok url =>
        cases hc : env.copyErr with
        | some e => simp [sessionTry, sessionExc, hs, hh, hu, hc]
        | none => simp [sessionTry, sessionExc, hs, hh, hu, hc]

/-- When `take_snip` returns a path, the `try` block hands that path to the
`finally` block and the file it created is on disk. -/
theorem sessionTry_path (env : Env) (w : World) (p : Str)
    (hs : env.snip = .ok p) :
    (sessionTry env w).1 = some p
    ∧ (sessionTry env w).2.1.files = w.files.insert p := by
  cases hh : env.httpResp p with
  | error e => simp [sessionTry, hs, hh]
  | ok resp =>
    cases hu : upload_to_catbox resp with
    | error ue => simp [sessionTry, hs, hh, hu]
    | ok url =>
      cases hc : env.copyErr with
      | some e => simp [sessionTry, hs, hh, hu, hc]
      | none => simp [sessionTry, hs, hh, hu, hc]

/-- The clipboard value produced by the `try` block is the session URL when
there is one, and the prior value otherwise. -/
theorem sessionTry_clipboard (env : Env) (w : World) :
    (sessionTry env w).2.1.clipboard = (sessionUrl env).getD w.clipboard := by
  cases hs : env.snip with
  | error e => simp [sessionTry, sessionUrl, hs]
  | ok p =>
    cases hh : env.httpResp p with
    | error e => simp [sessionTry, sessionUrl, hs, hh]
    | ok resp =>
      cases hu : upload_to_catbox resp with
      | error ue => simp [sessionTry, sessionUrl, hs, hh, hu]
      | ok url =>
        cases hc : env.copyErr with
        | some e => simp [sessionTry, sessionUrl, hs, hh, hu, hc]
        | none => simp [sessionTry, sessionUrl, hs, hh, hu, hc]

/-- Unfolding: `on_hotkey` is the `try` block followed by the logging handler and the
`finally` block; it always returns normally. -/
theorem on_hotkey_eq (env : Env) (w : World) :
    on_hotkey env w =
      .ok (cleanupStep env (sessionTry env w).1 (sessionTry env w).2.1
        ((sessionTry env w).2.2.1 ++ excLog (sessionTry env w).2.2.2)) := by
  rcases h : sessionTry env w with ⟨pathOpt, w1, log1, excOpt⟩
  simp [on_hotkey, h]

/-- The `finally` block never drops an already-emitted log line. -/
theorem cleanupStep_log_mem (env : Env) (po : Option Str) (w1 : World)
    (log2 : List LogMsg) (m : LogMsg) (h : m ∈ log2) :
    m ∈ (cleanupStep env po w1 log2).2 := by
  cases po with
  | none => simpa [cleanupStep] using h
  | some p =>
    by_cases hc : p ≠ [] ∧ p ∈ w1.files
    · cases hr : env.removeErr p with
      | none => simp [cleanupStep, hc, hr, List.mem_append]; exact Or.inl h
      | some e => simp [cleanupStep, hc, hr, List.mem_append]; exact Or.inl h
    · simpa [cleanupStep, hc] using h

/-- The `finally` block never touches the clipboard. -/
theorem cleanupStep_clipboard (env : Env) (po : Option Str) (w1 : World)
    (log2 : List LogMsg) :
    (cleanupStep env po w1 log2).1.clipboard = w1.clipboard := by
  cases po with
  | none => rfl
  | some p =>
    by_cases hc : p ≠ [] ∧ p ∈ w1.files
    · cases hr : env.removeErr p with
      | none => simp [cleanupStep, hc, hr]
      | some e => simp [cleanupStep, hc, hr]
    · simp [cleanupStep, hc]

/-- A removed file is gone from the file set. -/
theorem not_mem_removeFile (fs : List Str) (p : Str) :
    p ∉ removeFile fs p := by
  simp [removeFile, List.mem_filter]

/-- C4: whatever the outcome of any stage (selection, capture, upload,
clipboard write, or cleanup), `on_hotkey` returns normally; a stage
exception is logged by the `except` handler, and a cleanup exception is
logged by the inner handler. -/
theorem on_hotkey_swallows_exceptions (env : Env) (w : World) :
    isOkE (on_hotkey env w) = true
    ∧ (∀ e, sessionExc env = some e →
        LogMsg.errorSnipUpload e ∈ resultLog (on_hotkey env w))
    ∧ (∀ p e, env.snip = .ok p → p ≠ [] → env.removeErr p = some e →
        LogMsg.couldNotDelete e ∈ resultLog (on_hotkey env w)) := by
  refine ⟨by rw [on_hotkey_eq]; rfl, ?_, ?_⟩
  · intro e he
    rw [on_hotkey_eq]
    have hmem : LogMsg.errorSnipUpload e ∈
        (sessionTry env w).2.2.1 ++ excLog (sessionTry env w).2.2.2 := by
      rw [sessionTry_exc, he]
      simp [excLog]
    exact cleanupStep_log_mem env _ _ _ _ hmem
  · intro p e hs hp hr
    obtain ⟨hpath, hfiles⟩ := sessionTry_path env w p hs
    rw [on_hotkey_eq, hpath]
    have hmem : p ∈ (sessionTry env w).2.1.files := by
      rw [hfiles]; exact List.mem_insert_self p w.files
    simp [resultLog, cleanupStep, hp, hmem, hr, List.mem_append]

/-- Witness for C4: a session whose upload gets HTTP 400 and whose cleanup
also fails still returns normally, with both failures logged. -/
theorem on_hotkey_swallows_exceptions_witness :
    isOkE (on_hotkey envC4 wC4) = true
    ∧ LogMsg.errorSnipUpload (.runtime ⟨400, "Bad request".toList⟩) ∈
        resultLog (on_hotkey envC4 wC4)
    ∧ LogMsg.couldNotDelete (.other "PermissionError".toList) ∈
        resultLog (on_hotkey envC4 wC4) := by
  have h := on_hotkey_swallows_exceptions envC4 wC4
  exact ⟨h.1, h.2.1 _ (by rfl), h.2.2 pC4 _ rfl (by decide) rfl⟩

/-- Counterexample to C5 as stated: in a session where the upload and
clipboard write succeed but `os.remove` raises, the capture file created
during the session still exists when `on_hotkey` returns (the failure is
only logged). -/
theorem temp_file_survives_failed_delete :
    pC5 ∉ wC5.files
    ∧ pC5 ∈ (resultWorld (on_hotkey envC5 wC5) wC5).files
    ∧ LogMsg.couldNotDelete (.other "PermissionError".toList) ∈
        resultLog (on_hotkey envC5 wC5) := by
  refine ⟨by decide, by decide, by decide⟩

/-- C5 (amended): on every exit path of `on_hotkey` on which `take_snip`
returned a path, deletion of the capture file is attempted: when the
`os.remove` call succeeds the file no longer exists on return (and the
deletion is logged), and when it raises, the failure is logged and
swallowed (the file may remain). -/
theorem on_hotkey_cleanup_attempted (env : Env) (w : World) (p : Str)
    (hs : env.snip = .ok p) (hp : p ≠ []) :
    (env.removeErr p = none →
      p ∉ (resultWorld (on_hotkey env w) w).files
      ∧ LogMsg.tempDeleted p ∈ resultLog (on_hotkey env w))
    ∧ (∀ e, env.removeErr p = some e →
        LogMsg.couldNotDelete e ∈ resultLog (on_hotkey env w)) := by
  obtain ⟨hpath, hfiles⟩ := sessionTry_path env w p hs
  have hmem : p ∈ (sessionTry env w).2.1.files := by
    rw [hfiles]; exact List.mem_insert_self p w.files
  constructor
  · intro hr
    rw [on_hotkey_eq, hpath]
    constructor
    · simp only [resultWorld, cleanupStep, hp, hmem, hr, ne_eq,
        not_false_eq_true, and_self, if_true]
      exact not_mem_removeFile _ p
    · simp [resultLog, cleanupStep, hp, hmem, hr, List.mem_append]
  · intro e hr
    rw [on_hotkey_eq, hpath]
    simp [resultLog, cleanupStep, hp, hmem, hr, List.mem_append]

/-- Witness for C5 (amended): in a fully successful session the capture
file is gone when `on_hotkey` returns, and its deletion was logged. -/
theorem on_hotkey_cleanup_attempted_witness :
    pC5w ∉ (resultWorld (on_hotkey envC5w wC5w) wC5w).files
    ∧ LogMsg.tempDeleted pC5w ∈ resultLog (on_hotkey envC5w wC5w) :=
  (on_hotkey_cleanup_attempted envC5w wC5w pC5w rfl (by decide)).1 rfl

/-- Counterexample to C6 as stated: a session that fails at the cleanup
stage (its `os.remove` raises, which is logged) nevertheless leaves the
clipboard changed to the uploaded URL. -/
theorem clipboard_changed_despite_cleanup_failure :
    (resultWorld (on_hotkey envC6 wC6) wC6).clipboard =
      "https://files.catbox.moe/ghi.png".toList
    ∧ wC6.clipboard ≠ "https://files.catbox.moe/ghi.png".toList
    ∧ LogMsg.couldNotDelete (.other "PermissionError".toList) ∈
        resultLog (on_hotkey envC6 wC6) := by
  refine ⟨by decide, by decide, by decide⟩

/-- C6 (amended): the clipboard after `on_hotkey` equals the uploaded URL
exactly when selection, capture, upload and the clipboard write all
succeeded (even if cleanup then fails), and is unchanged from its prior
value whenever any of those stages failed. -/
theorem on_hotkey_clipboard_exact (env : Env) (w : World) :
    (resultWorld (on_hotkey env w) w).clipboard =
      (sessionUrl env).getD w.clipboard := by
  rw [on_hotkey_eq]
  show (cleanupStep env _ _ _).1.clipboard = _
  rw [cleanupStep_clipboard, sessionTry_clipboard]

/-- One-step unfolding of `digits` below ten. -/
theorem digits_lt10 (n : Nat) (h : n < 10) : digits n = [Nat.digitChar n] := by
  rw [digits]
  simp [h]

/-- One-step unfolding of `digits` at ten or above. -/
theorem digits_ge10 (n : Nat) (h : ¬ n < 10) :
    digits n = digits (n / 10) ++ [Nat.digitChar (n % 10)] := by
  rw [digits]
  simp [h]

/-- A single decimal digit renders as a digit character. -/
theorem digitChar_isDigit (d : Nat) (h : d < 10) :
    (Nat.digitChar d).isDigit = true := by
  interval_cases d <;> decide

/-- Every character of a decimal rendering is a digit. -/
theorem digits_all (n : Nat) : (digits n).all Char.isDigit = true := by
  induction n using Nat.strong_induction_on with
  | _ n ih =>
    by_cases h : n < 10
    · rw [digits_lt10 n h]
      simp [digitChar_isDigit n h]
    · rw [digits_ge10 n h]
      rw [List.all_append]
      have h1 := ih (n / 10) (Nat.div_lt_self (by omega) (by omega))
      simp [h1, digitChar_isDigit (n % 10) (Nat.mod_lt n (by omega))]

/-- Length of a one-digit rendering. -/
theorem digits_len1 (n : Nat) (h : n < 10) : (digits n).length = 1 := by
  rw [digits_lt10 n h]; rfl

/-- Length of a two-digit rendering. -/
theorem digits_len2 (n : Nat) (h1 : 10 ≤ n) (h2 : n < 100) :
    (digits n).length = 2 := by
  rw [digits_ge10 n (by omega)]
  have h3 : n / 10 < 10 := by omega
  simp [digits_len1 _ h3]

/-- Length of a three-digit rendering. -/
theorem digits_len3 (n : Nat) (h1 : 100 ≤ n) (h2 : n < 1000) :
    (digits n).length = 3 := by
  rw [digits_ge10 n (by omega)]
  have l : 10 ≤ n / 10 := by omega
  have r : n / 10 < 100 := by omega
  simp [digits_len2 _ l r]

/-- Length of a four-digit rendering. -/
theorem digits_len4 (n : Nat) (h1 : 1000 ≤ n) (h2 : n < 10000) :
    (digits n).length = 4 := by
  rw [digits_ge10 n (by omega)]
  have l : 100 ≤ n / 10 := by omega
  have r : n / 10 < 1000 := by omega
  simp [digits_len3 _ l r]

/-- A `%m %d %H %M %S` field always renders as exactly two characters. -/
theorem pad2_len (n : Nat) (h : n < 100) : (pad2 n).length = 2 := by
  by_cases h10 : n < 10
  · simp [pad2, h10, digits_len1 n h10]
  · simp [pad2, h10, digits_len2 n (by omega) h]

/-- A `%m %d %H %M %S` field renders as digit characters only. -/
theorem pad2_all (n : Nat) : (pad2 n).all Char.isDigit = true := by
  by_cases h10 : n < 10
  · simp [pad2, h10, digits_all n]
  · simp [pad2, h10, digits_all n]

/-- A string of digit characters contains no underscore. -/
theorem underscore_not_mem {l : Str} (h : l.all Char.isDigit = true) :
    '_' ∉ l := by
  intro hm
  have hd := List.all_eq_true.mp h _ hm
  exact absurd hd (by decide)

/-- C8: for in-range clock fields, `take_snip` returns the path of the file
it wrote in the fixed screenshots directory, whose filename is exactly
`snip_` followed by fifteen characters — eight digits, an underscore at
index 8, six digits — followed by `.png`, all derived from the clock at
second-level resolution. -/
theorem take_snip_path_shape (home : Str) (t : PyDateTime) (files : List Str)
    (hy1 : 1000 ≤ t.year) (hy2 : t.year < 10000) (hmo : t.month < 100)
    (hd : t.day < 100) (hh : t.hour < 100) (hmi : t.minute < 100)
    (hs : t.second < 100) :
    (take_snip home t files).1 = snipPath home t
    ∧ snipPath home t =
        tmpDir home ++ '/' :: ("snip_".toList ++ strfTimestamp t ++ ".png".toList)
    ∧ (strfTimestamp t).length = 15
    ∧ (strfTimestamp t).all (fun c => c.isDigit || c == '_') = true
    ∧ (strfTimestamp t)[8]? = some '_'
    ∧ (strfTimestamp t).count '_' = 1
    ∧ (take_snip home t files).2 = files.insert (snipPath home t) := by
  have hylen := digits_len4 t.year hy1 hy2
  have hmolen := pad2_len t.month hmo
  have hdlen := pad2_len t.day hd
  have hhlen := pad2_len t.hour hh
  have hmilen := pad2_len t.minute hmi
  have hslen := pad2_len t.second hs
  have hydig := digits_all t.year
  refine ⟨rfl, rfl, ?_, ?_, ?_, ?_, rfl⟩
  · simp only [strfTimestamp, List.length_append, List.length_cons,
      hylen, hmolen, hdlen, hhlen, hmilen, hslen]
  · have hmono : ∀ l : Str, l.all Char.isDigit = true →
        l.all (fun c => c.isDigit || c == '_') = true := by
      intro l hl
      rw [List.all_eq_true] at hl ⊢
      intro x hx
      simp [hl x hx]
    simp [strfTimestamp, List.all_append, hmono _ hydig, hmono _ (pad2_all t.month),
      hmono _ (pad2_all t.day), hmono _ (pad2_all t.hour), hmono _ (pad2_all t.minute),
      hmono _ (pad2_all t.second)]
  · have hassoc : strfTimestamp t =
        ((digits t.year ++ pad2 t.month) ++ pad2 t.day) ++
          ('_' :: (pad2 t.hour ++ pad2 t.minute ++ pad2 t.second)) := by
      simp [strfTimestamp, List.append_assoc]
    have hlen8 : ((digits t.year ++ pad2 t.month) ++ pad2 t.day).length = 8 := by
      simp [hylen, hmolen, hdlen]
    rw [hassoc, List.getElem?_append_right (by omega), hlen8]
    simp
  · have hcz : ∀ l : Str, l.all Char.isDigit = true → l.count '_' = 0 := by
      intro l hl
      exact List.count_eq_zero.mpr (underscore_not_mem hl)
    simp [strfTimestamp, List.count_append, List.count_cons, hcz _ hydig,
      hcz _ (pad2_all t.month), hcz _ (pad2_all t.day), hcz _ (pad2_all t.hour),
      hcz _ (pad2_all t.minute), hcz _ (pad2_all t.second)]

/-- Witness for C8 at a concrete clock reading. -/
theorem take_snip_path_shape_witness :
    (take_snip homeW tW []).1 = snipPath homeW tW
    ∧ (strfTimestamp tW).length = 15
    ∧ (strfTimestamp tW)[8]? = some '_' := by
  have h := take_snip_path_shape homeW tW [] (by decide) (by decide) (by decide)
    (by decide) (by decide) (by decide) (by decide)
  exact ⟨h.1, h.2.2.1, h.2.2.2.2.1⟩

/-- C10: the capture path depends only on the clock truncated to whole
seconds — two clock readings within the same second give the identical
path, and the `img.save` of the second capture adds no new file (it
overwrites the file of the first session). -/
theorem snip_path_same_second (home : Str) (t1 t2 : PyDateTime)
    (h1 : t1.year = t2.year) (h2 : t1.month = t2.month) (h3 : t1.day = t2.day)
    (h4 : t1.hour = t2.hour) (h5 : t1.minute = t2.minute)
    (h6 : t1.second = t2.second) :
    snipPath home t1 = snipPath home t2
    ∧ ∀ files, (take_snip home t2 ((take_snip home t1 files).2)).2 =
        (take_snip home t1 files).2 := by
  have hts : strfTimestamp t1 = strfTimestamp t2 := by
    simp [strfTimestamp, h1, h2, h3, h4, h5, h6]
  have hpath : snipPath home t1 = snipPath home t2 := by
    simp [snipPath, snipFilename, hts]
  refine ⟨hpath, ?_⟩
  intro files
  simp only [take_snip]
  rw [← hpath]
  exact List.insert_of_mem (List.mem_insert_self _ _)

/-- Witness for C10: two readings in the same second, with different
sub-second parts, give the same path, and the second save adds no file. -/
theorem snip_path_same_second_witness :
    snipPath homeW tW = snipPath homeW tW2
    ∧ (take_snip homeW tW2 ((take_snip homeW tW []).2)).2 =
        (take_snip homeW tW []).2 := by
  have h := snip_path_same_second homeW tW tW2 rfl rfl rfl rfl rfl rfl
  exact ⟨h.1, h.2 []⟩
